import Mathlib

set_option linter.unusedVariables false

/-!
Shallow embedding of the drf-ext library:

* `src/drf_ext/mixins.py` — the `NestedCreateUpdateMixin` engine
  (`_get_nested_validation_error`, `_handle_single_instance_data`,
  `_get_related_field_data`, `create`, `update`);
* `src/drf_ext/metaclasses.py` — the `_pk` discriminator injection of
  `NestedCreateUpdateMetaclass.__new__` and the patched `is_valid` of
  `FieldOptionsMetaclass.__new__`;
* `src/drf_ext/utils.py` — `update_error_dict`.

The host framework's validation engine and persistence backend are external
collaborators: serializer validation is a parameter (a function returning an
optional exception, exactly what `is_valid(raise_exception=True)` may raise),
and the store is explicit state threaded through every operation.
-/

/-- Values occurring in a (validated) payload: integers, strings, nested
payload mappings, and lists (of nested payloads or plain values). -/
inductive PVal where
  | nat : Nat → PVal
  | str : String → PVal
  | map : List (String × PVal) → PVal
  | list : List PVal → PVal

/-- A payload: a Python dict from field name to value (association list,
insertion-ordered, keys unique in practice). -/
abbrev Payload := List (String × PVal)

/-- Dict lookup: first binding of the key, mirroring `d[k]` / `k in d`. -/
def alistLookup {α : Type} : List (String × α) → String → Option α
  | [], _ => none
  | (k', v) :: t, k => if k' == k then some v else alistLookup t k

/-- Dict membership test, mirroring Python's `k in d`. -/
def alistHas {α : Type} (l : List (String × α)) (k : String) : Bool :=
  (alistLookup l k).isSome

/-- Dict update for one key, mirroring `d[k] = v` / `dict.update`:
replace in place if the key exists, else append at the end. -/
def alistSet {α : Type} : List (String × α) → String → α → List (String × α)
  | [], k, v => [(k, v)]
  | (k', v') :: t, k, v =>
      if k' == k then (k, v) :: t else (k', v') :: alistSet t k v

/-- Dict `pop`: remove the first binding of the key, returning the value and
the remaining dict; `none` models a `KeyError`. -/
def alistPop {α : Type} : List (String × α) → String → Option (α × List (String × α))
  | [], _ => none
  | (k', v) :: t, k =>
      if k' == k then some (v, t)
      else match alistPop t k with
           | none => none
           | some (v₀, t') => some (v₀, (k', v) :: t')

/-- Error detail inside a validation error: a list of message strings or a
nested mapping (the DRF error-detail shape). -/
inductive EDetail where
  | msgs : List String → EDetail
  | node : List (String × EDetail) → EDetail

/-- One positional argument of an exception (`exc.args` entry): a mapping of
field keys to details, or any non-dict argument (modelled by a string). -/
inductive VArg where
  | dict : List (String × EDetail) → VArg
  | str : String → VArg

/-- Exception class: DRF `ValidationError`, Django `ValidationError`, or any
other exception class (`TypeError`, database errors, ...). -/
inductive ExcKind where
  | validation
  | djangoValidation
  | other
deriving DecidableEq

/-- An exception value: its class together with its `args` tuple. -/
structure Exc where
  kind : ExcKind
  args : List VArg

/-- Reserved non-field error key, `NON_FIELD_ERRORS_KEY = "__all__"`. -/
def NON_FIELD_ERRORS_KEY : String := "__all__"

/-- Build a DRF `ValidationError` carrying one dict argument. -/
def validationExc (d : List (String × EDetail)) : Exc :=
  ⟨ExcKind.validation, [VArg.dict d]⟩

/-- The dict comprehension of `_get_nested_validation_error`, iterating the
args in order into an accumulated dict:
`{key: value for arg in args if isinstance(arg, dict) for key, value in arg.items()}`. -/
def mergeDictPairsInto (acc : List (String × EDetail)) :
    List VArg → List (String × EDetail)
  | [] => acc
  | VArg.dict d :: t =>
      mergeDictPairsInto (d.foldl (fun m kv => alistSet m kv.1 kv.2) acc) t
  | VArg.str _ :: t => mergeDictPairsInto acc t

/-- The dict built by the comprehension of `_get_nested_validation_error`:
dict args merged in order, later bindings replacing earlier ones. -/
def mergeDictArgs (args : List VArg) : List (String × EDetail) :=
  mergeDictPairsInto [] args

/-- All key/detail pairs carried by the dict arguments, concatenated in
order (the "union of all key/message pairs" of the spec). -/
def collectDictPairs : List VArg → List (String × EDetail)
  | [] => []
  | VArg.dict d :: t => d ++ collectDictPairs t
  | VArg.str _ :: t => collectDictPairs t

/-- Whether the keys of an association list are pairwise distinct (always
true for a dict coming from Python). -/
def keysDistinct {α : Type} : List (String × α) → Bool
  | [] => true
  | (k, _) :: t => !(alistHas t k) && keysDistinct t

/-- `NestedCreateUpdateMixin._get_nested_validation_error`: for a
(DRF or Django) validation error, return a new error of the same class whose
sole content is `{nested_field_name: merged-dict-args}`; for any other
exception class raise a `TypeError`. -/
def get_nested_validation_error (nestedFieldName : String) (exc : Exc) :
    Except Exc Exc :=
  if exc.kind = ExcKind.other then
    Except.error ⟨ExcKind.other, [VArg.str "TypeError: exc must be of type ValidationError"]⟩
  else
    Except.ok ⟨exc.kind, [VArg.dict [(nestedFieldName, EDetail.node (mergeDictArgs exc.args))]]⟩

/-- A stored attribute value on a persisted object: a plain value, a to-one
reference (related model name, pk) or a to-many collection of references. -/
inductive RVal where
  | val : PVal → RVal
  | ref : String → Nat → RVal
  | refs : List (String × Nat) → RVal

/-- A persisted object: its model, primary key and attribute dict. -/
structure Obj where
  model : String
  pk : Nat
  data : List (String × RVal)

/-- The persistence backend: a fresh-pk counter and the stored objects. -/
structure Store where
  nextPk : Nat
  objs : List Obj

/-- `pv == n` for a payload value against an integer primary key
(`related_obj.pk != field_data_pk` comparison). -/
def pvEqNat (pv : PVal) (n : Nat) : Bool :=
  match pv with
  | PVal.nat m => m == n
  | _ => false

/-- Python `str()` of a payload value as interpolated into error messages
(only integers and strings ever reach a message). -/
def PVal.render : PVal → String
  | PVal.nat n => toString n
  | PVal.str s => s
  | PVal.map _ => "<mapping>"
  | PVal.list _ => "<list>"

/-- `related_model._default_manager.get(pk=_pk)`: first stored object of the
model with that primary key; `none` models `DoesNotExist`. -/
def storeGetByPk (st : Store) (model : String) (pkv : PVal) : Option Obj :=
  st.objs.find? (fun o => o.model == model && pvEqNat pkv o.pk)

/-- Persist an updated object in place (`instance.save()` on an existing row). -/
def storeReplace (st : Store) (obj : Obj) : Store :=
  ⟨st.nextPk, st.objs.map (fun o => if o.model == obj.model && o.pk == obj.pk then obj else o)⟩

/-- `instance.delete()`: remove the row with the object's model and pk. -/
def storeDelete (st : Store) (obj : Obj) : Store :=
  ⟨st.nextPk, st.objs.filter (fun o => !(o.model == obj.model && o.pk == obj.pk))⟩

/-- A nested serializer class: its `Meta.model` name and its validation
behaviour. `validate data = some e` means `is_valid(raise_exception=True)`
raises `e` (a validation error, or anything a custom validator raises);
`none` means validation passes (the external validation engine). -/
structure SerDef where
  modelName : String
  validate : Payload → Option Exc

/-- A declared serializer field object as seen by the mixin: `child` is
`some` exactly when the field is a `ListSerializer` (`hasattr(field_obj,
"child")`), and `own` stands for `field_obj.__class__` itself. For a
to-one field `own` is the nested serializer class; for a to-many field
`field_obj.__class__` is the `ListSerializer` class itself, modelled
faithfully by `toManySerObj` below. -/
structure SerObj where
  child : Option SerDef
  own : SerDef

/-- The `AssertionError` raised by the host framework's
`ListSerializer.__init__` when the class is instantiated without a `child`
keyword argument (`assert self.child is not None`). -/
def listSerializerAssertionError : Exc :=
  ⟨ExcKind.other, [VArg.str "AssertionError: `child` is a required argument."]⟩

/-- The `ListSerializer` class itself as `field_obj.__class__` of a to-many
field: the update branch of `_handle_single_instance_data` instantiates it
as `field_obj.__class__(instance, data=field_data)` with no `child`
argument, so construction raises the `AssertionError` before any
validation or save — every run of this serializer class raises that
error, whatever the data. -/
def listSerializerClass (modelName : String) : SerDef :=
  ⟨modelName, fun _ => some listSerializerAssertionError⟩

/-- A faithful to-many nested serializer field object: it has a `child`
(`hasattr(field_obj, "child")` holds, used by the create branch) and its
`own` class is the `ListSerializer` class itself (used by the update
branch, where it raises at construction). -/
def toManySerObj (child : SerDef) : SerObj :=
  ⟨some child, listSerializerClass child.modelName⟩

/-- `serializer_cls(data=field_data); is_valid(raise_exception=True); save()`
for a create: validate, then persist a fresh object with a fresh pk. -/
def serRunCreate (ser : SerDef) (data : Payload) (st : Store) :
    Except Exc (Obj × Store) :=
  match ser.validate data with
  | some e => Except.error e
  | none =>
      let obj : Obj := ⟨ser.modelName, st.nextPk, data.map (fun kv => (kv.1, RVal.val kv.2))⟩
      Except.ok (obj, ⟨st.nextPk + 1, st.objs ++ [obj]⟩)

/-- `field_obj.__class__(instance, data=field_data); is_valid(...); save()`
for an update: validate, then merge the payload into the bound instance's
attributes and save it. -/
def serRunUpdate (ser : SerDef) (inst : Obj) (data : Payload) (st : Store) :
    Except Exc (Obj × Store) :=
  match ser.validate data with
  | some e => Except.error e
  | none =>
      let obj : Obj :=
        ⟨inst.model, inst.pk, data.foldl (fun d kv => alistSet d kv.1 (RVal.val kv.2)) inst.data⟩
      Except.ok (obj, storeReplace st obj)

/-- The `except KeyError` branch of `_handle_single_instance_data` (no `_pk`):
use `field_obj.child` if present else `field_obj` itself, validate the data
and persist a new object, returning `created = True`. -/
def handle_create_branch (fieldObj : SerObj) (fieldData : Payload) (st : Store) :
    Except Exc ((Bool × Obj) × Store) :=
  match serRunCreate (fieldObj.child.getD fieldObj.own) fieldData st with
  | Except.error e => Except.error e
  | Except.ok (obj, st') => Except.ok ((true, obj), st')

/-- The `else` branch of `_handle_single_instance_data` (`_pk` present):
look the object up; `DoesNotExist` becomes a `ValidationError` under
`NON_FIELD_ERRORS_KEY`; otherwise validate and save with update semantics,
returning `created = False`. -/
def handle_update_branch (relatedModel : String) (fieldObj : SerObj)
    (pkv : PVal) (rest : Payload) (st : Store) :
    Except Exc ((Bool × Obj) × Store) :=
  match storeGetByPk st relatedModel pkv with
  | none =>
      Except.error (validationExc
        [(NON_FIELD_ERRORS_KEY,
          EDetail.msgs ["No such " ++ relatedModel ++ " object with primary key "
            ++ pkv.render ++ " exists."])])
  | some inst =>
      match serRunUpdate fieldObj.own inst rest st with
      | Except.error e => Except.error e
      | Except.ok (obj, st') => Except.ok ((false, obj), st')

/-- `NestedCreateUpdateMixin._handle_single_instance_data`: pop `_pk` from the
field data and dispatch to the create or update branch. -/
def handle_single_instance_data (relatedModel : String) (fieldObj : SerObj)
    (fieldData : Payload) (st : Store) : Except Exc ((Bool × Obj) × Store) :=
  match alistPop fieldData "_pk" with
  | none => handle_create_branch fieldObj fieldData st
  | some (pkv, rest) => handle_update_branch relatedModel fieldObj pkv rest st

/-- `field_data.pop("_pk")` on a non-dict raises an `AttributeError`; the
engine passes the raw payload value through this coercion. -/
def handleSinglePV (relatedModel : String) (fieldObj : SerObj)
    (fieldData : PVal) (st : Store) : Except Exc ((Bool × Obj) × Store) :=
  match fieldData with
  | PVal.map p => handle_single_instance_data relatedModel fieldObj p st
  | _ => Except.error ⟨ExcKind.other, [VArg.str "AttributeError: pop"]⟩

/-- Relation metadata per field (`model_meta.RelationInfo`): the related model
and whether the relation is to-many. -/
structure RelationInfo where
  relatedModel : String
  toMany : Bool

/-- A writable serializer field as iterated by `self._writable_fields`:
its `source` name and, when it is a `BaseSerializer` instance, the nested
serializer object. -/
structure FieldDecl where
  source : String
  serObj : Option SerObj

/-- A value collected into `related_to_many_fields_data`: resolved instances
(for nested serializer fields) or the raw field data (for plain fields). -/
inductive RManyVal where
  | objsV : List Obj → RManyVal
  | rawV : PVal → RManyVal

/-- `created_instances.add(instance)`: set insertion, dedup by Django model
equality (same model and pk). -/
def addInstance (l : List Obj) (o : Obj) : List Obj :=
  if l.any (fun x => x.model == o.model && x.pk == o.pk) then l else l ++ [o]

/-- `related_to_many_fields_data.setdefault(field_name, []).append(instance)`. -/
def appendMany (l : List (String × RManyVal)) (k : String) (o : Obj) :
    List (String × RManyVal) :=
  match alistLookup l k with
  | some (RManyVal.objsV os) => alistSet l k (RManyVal.objsV (os ++ [o]))
  | some (RManyVal.rawV _) => alistSet l k (RManyVal.objsV [o])
  | none => l ++ [(k, RManyVal.objsV [o])]

/-- The mutable state of the `_get_related_field_data` loop. -/
structure LoopAcc where
  validated : Payload
  toOne : List (String × RVal)
  toMany : List (String × RManyVal)
  created : List Obj
  store : Store

/-- An exception escaping the loop body, together with the created-instance
set and the store at the moment it was raised. -/
structure LoopErr where
  exc : Exc
  created : List Obj
  store : Store

/-- Re-raise a caught nested validation error wrapped under the field name
(`raise self._get_nested_validation_error(field_name, e)`); any other
exception class propagates unwrapped past the inner `except`. -/
def wrapFieldError (fieldName : String) (e : Exc) : Exc :=
  if e.kind = ExcKind.other then e
  else
    match get_nested_validation_error fieldName e with
    | Except.ok w => w
    | Except.error t => t

/-- The inner `for single_field_data in field_data` loop over a to-many
nested serializer field's payload elements. -/
def processElems (relatedModel : String) (so : SerObj) (fieldName : String) :
    List PVal → LoopAcc → Except LoopErr LoopAcc
  | [], acc => Except.ok acc
  | elem :: elems, acc =>
      match handleSinglePV relatedModel so elem acc.store with
      | Except.error e =>
          Except.error ⟨wrapFieldError fieldName e, acc.created, acc.store⟩
      | Except.ok ((created, inst), st') =>
          let created' := if created then addInstance acc.created inst else acc.created
          processElems relatedModel so fieldName elems
            ⟨acc.validated, acc.toOne, appendMany acc.toMany fieldName inst, created', st'⟩

/-- One iteration of the `for field in self._writable_fields` loop of
`_get_related_field_data`. -/
def processField (info : List (String × RelationInfo)) (field : FieldDecl)
    (acc : LoopAcc) : Except LoopErr LoopAcc :=
  let fieldName := field.source
  match alistLookup acc.validated fieldName, alistLookup info fieldName with
  | some fieldData, some relInfo =>
      match alistPop acc.validated fieldName with
      | none => Except.ok acc
      | some (_, validated') =>
        let acc1 : LoopAcc := ⟨validated', acc.toOne, acc.toMany, acc.created, acc.store⟩
        if relInfo.toMany then
          match field.serObj with
          | some so =>
              match fieldData with
              | PVal.list elems => processElems relInfo.relatedModel so fieldName elems acc1
              | _ =>
                  Except.error ⟨⟨ExcKind.other, [VArg.str "TypeError: not iterable"]⟩,
                    acc1.created, acc1.store⟩
          | none =>
              Except.ok ⟨acc1.validated, acc1.toOne,
                acc1.toMany ++ [(fieldName, RManyVal.rawV fieldData)], acc1.created, acc1.store⟩
        else
          match field.serObj with
          | some so =>
              match handleSinglePV relInfo.relatedModel so fieldData acc1.store with
              | Except.error e =>
                  Except.error ⟨wrapFieldError fieldName e, acc1.created, acc1.store⟩
              | Except.ok ((created, inst), st') =>
                  Except.ok ⟨acc1.validated,
                    alistSet acc1.toOne fieldName (RVal.ref inst.model inst.pk),
                    acc1.toMany,
                    (if created then addInstance acc1.created inst else acc1.created),
                    st'⟩
          | none =>
              Except.ok ⟨acc1.validated,
                alistSet acc1.toOne fieldName (RVal.val fieldData),
                acc1.toMany, acc1.created, acc1.store⟩
  | _, _ => Except.ok acc

/-- The whole `for field in self._writable_fields` loop (the `try` body of
`_get_related_field_data`). -/
def loopFields (info : List (String × RelationInfo)) :
    List FieldDecl → LoopAcc → Except LoopErr LoopAcc
  | [], acc => Except.ok acc
  | f :: fs, acc =>
      match processField info f acc with
      | Except.error e => Except.error e
      | Except.ok acc' => loopFields info fs acc'

/-- The compensation loop `for instance in created_instances:
instance.delete()`. `deleteExc o = some e` means deleting `o` raises `e`;
the loop then stops, leaving the remaining instances untouched. -/
def rollbackCreated (deleteExc : Obj → Option Exc) :
    List Obj → Store → Except (Exc × Store) Store
  | [], st => Except.ok st
  | o :: os, st =>
      match deleteExc o with
      | some e => Except.error (e, st)
      | none => rollbackCreated deleteExc os (storeDelete st o)

/-- `NestedCreateUpdateMixin._get_related_field_data`: run the field loop;
on any exception, delete every tracked created instance and re-raise (the
`except Exception` handler). Returns the to-one dict, the to-many dict,
the remaining validated data and the store. -/
def get_related_field_data (fields : List FieldDecl) (deleteExc : Obj → Option Exc)
    (info : List (String × RelationInfo)) (validated : Payload) (st : Store) :
    Except (Exc × Store)
      ((List (String × RVal)) × (List (String × RManyVal)) × Payload × Store) :=
  match loopFields info fields ⟨validated, [], [], [], st⟩ with
  | Except.ok acc => Except.ok (acc.toOne, acc.toMany, acc.validated, acc.store)
  | Except.error le =>
      match rollbackCreated deleteExc le.created le.store with
      | Except.ok st' => Except.error (le.exc, st')
      | Except.error (e2, st') => Except.error (e2, st')

/-- `getattr(instance, field_name).set(value)` for one to-many field. -/
def setManyField (parent : Obj) (st : Store) (kv : String × RManyVal) : Obj × Store :=
  let rv :=
    match kv.2 with
    | RManyVal.objsV l => RVal.refs (l.map (fun o => (o.model, o.pk)))
    | RManyVal.rawV pv => RVal.val pv
  let parent' : Obj := ⟨parent.model, parent.pk, alistSet parent.data kv.1 rv⟩
  (parent', storeReplace st parent')

/-- Attach all resolved to-many collections to the parent, in dict order. -/
def setManyAll (toMany : List (String × RManyVal)) (parent : Obj) (st : Store) :
    Obj × Store :=
  toMany.foldl (fun ps kv => setManyField ps.1 ps.2 kv) (parent, st)

/-- `NestedCreateUpdateMixin.create`: resolve related fields, merge the
to-one results into the validated data, create the parent row, then set the
to-many collections. -/
def mixin_create (fields : List FieldDecl) (modelName : String)
    (deleteExc : Obj → Option Exc) (info : List (String × RelationInfo))
    (validated : Payload) (st : Store) : Except (Exc × Store) (Obj × Store) :=
  match get_related_field_data fields deleteExc info validated st with
  | Except.error es => Except.error es
  | Except.ok (toOne, toMany, validated', st1) =>
      let attrs := toOne.foldl (fun d kv => alistSet d kv.1 kv.2)
        (validated'.map (fun kv => (kv.1, RVal.val kv.2)))
      let parent : Obj := ⟨modelName, st1.nextPk, attrs⟩
      let st2 : Store := ⟨st1.nextPk + 1, st1.objs ++ [parent]⟩
      Except.ok (setManyAll toMany parent st2)

/-- `getattr(instance, field_name)` for the update-time relation check:
the related object's (model, pk) when the slot holds one, else `none`
(slot empty — check skipped). -/
def getRelatedRef (o : Obj) (fieldName : String) : Option (String × Nat) :=
  match alistLookup o.data fieldName with
  | some (RVal.ref m pk) => some (m, pk)
  | _ => none

/-- One iteration of the consistency pre-check at the top of
`NestedCreateUpdateMixin.update`: to-many relations are skipped by
`continue`; for a to-one relation whose payload value is a mapping and
whose slot already holds a related object, `_pk` must be present and equal
the related object's pk, else a field-scoped `ValidationError` is raised
(`some`); every fall-through of the loop body is `none`. -/
def check_one_relation (instanceObj : Obj) (validated : Payload)
    (fieldName : String) (rel : RelationInfo) : Option Exc :=
  if rel.toMany then none
  else
    match alistLookup validated fieldName with
    | some (PVal.map fd) =>
        match getRelatedRef instanceObj fieldName with
        | some (rmodel, rpk) =>
            match alistLookup fd "_pk" with
            | none =>
                some (validationExc
                  [(fieldName, EDetail.msgs ["Related object already exists."])])
            | some pkv =>
                if pvEqNat pkv rpk then none
                else
                  some (validationExc
                    [(fieldName, EDetail.msgs
                      ["No such " ++ rmodel ++ " object with primary key "
                        ++ pkv.render ++ " exists."])])
        | none => none
    | _ => none

/-- The whole pre-check loop `for field_name, field_relation in
info.relations.items()`: raise the first violation, in relation order. -/
def update_pre_check (instanceObj : Obj) (validated : Payload) :
    List (String × RelationInfo) → Option Exc
  | [] => none
  | (fieldName, rel) :: rest =>
      match check_one_relation instanceObj validated fieldName rel with
      | some e => some e
      | none => update_pre_check instanceObj validated rest

/-- `NestedCreateUpdateMixin.update`: run the pre-check, resolve related
fields, merge to-one results, assign every remaining attribute onto the
instance and save it, then set the to-many collections. -/
def mixin_update (fields : List FieldDecl) (deleteExc : Obj → Option Exc)
    (info : List (String × RelationInfo)) (instanceObj : Obj)
    (validated : Payload) (st : Store) : Except (Exc × Store) (Obj × Store) :=
  match update_pre_check instanceObj validated info with
  | some e => Except.error (e, st)
  | none =>
      match get_related_field_data fields deleteExc info validated st with
      | Except.error es => Except.error es
      | Except.ok (toOne, toMany, validated', st1) =>
          let merged := toOne.foldl (fun d kv => alistSet d kv.1 kv.2)
            (validated'.map (fun kv => (kv.1, RVal.val kv.2)))
          let inst1 : Obj :=
            ⟨instanceObj.model, instanceObj.pk,
              merged.foldl (fun d kv => alistSet d kv.1 kv.2) instanceObj.data⟩
          let st2 := storeReplace st1 inst1
          Except.ok (setManyAll toMany inst1 st2)

/-- `Meta.fields` of a nested serializer class: the `ALL_FIELDS` sentinel or
an explicit enumeration. -/
inductive MetaFields where
  | all
  | explicitList : List String → MetaFields
deriving DecidableEq

/-- The class-level state of a nested serializer that
`NestedCreateUpdateMetaclass.__new__` mutates: the keys of
`_declared_fields` and `Meta.fields`. -/
structure SerClass where
  declaredFields : List String
  metaFields : MetaFields
deriving DecidableEq

/-- One application of the discriminator injection of
`NestedCreateUpdateMetaclass.__new__` to a nested `ModelSerializer` class:
`_declared_fields.update(_pk=...)` (dict update — idempotent on the key
list), and for an explicit `Meta.fields` the append
`tuple(serializer_meta_fields) + ("_pk",)`; for `ALL_FIELDS` the
default-field-name resolver of the instance is wrapped instead and
`Meta.fields` is left unchanged. -/
def inject_pk_field (c : SerClass) : SerClass :=
  let df := if c.declaredFields.contains "_pk" then c.declaredFields
            else c.declaredFields ++ ["_pk"]
  match c.metaFields with
  | MetaFields.all => ⟨df, MetaFields.all⟩
  | MetaFields.explicitList fs => ⟨df, MetaFields.explicitList (fs ++ ["_pk"])⟩

/-- The four `Meta` required-field options read by
`FieldOptionsMetaclass.__new__`. -/
structure FieldOptions where
  required_fields_on_create : List String
  required_fields_on_update : List String
  required_fields_on_create_any : List String
  required_fields_on_update_any : List String

/-- `drf_ext.utils.update_error_dict`:
`errors.setdefault(field_name, []).append(message)`. -/
def update_error_dict (errors : List (String × List String)) (fieldName : String)
    (message : String) : List (String × List String) :=
  match alistLookup errors fieldName with
  | some msgs => alistSet errors fieldName (msgs ++ [message])
  | none => errors ++ [(fieldName, [message])]

/-- The body of the required-field checks for one pair of rule lists: the
`for field in required_fields` loop and the guarded `for ... else` loop over
`required_fields_any`. -/
def run_required_rules (requiredFields requiredAny : List String)
    (data : Payload) : List (String × List String) :=
  let errors := requiredFields.foldl
    (fun errs f => if alistHas data f then errs
                   else update_error_dict errs f "This field is required.")
    []
  if requiredAny.isEmpty then errors
  else if requiredAny.any (fun f => alistHas data f) then errors
  else update_error_dict errors NON_FIELD_ERRORS_KEY
    ("At least one of \"" ++ String.intercalate ", " requiredAny ++ "\" is required.")

/-- The error dict computed by the patched `is_valid` of
`FieldOptionsMetaclass` on mapping input: update rules are selected when the
serializer is bound to an instance or the top-level data contains `_pk`,
create rules otherwise. -/
def field_options_check (opts : FieldOptions) (instanceBound : Bool)
    (data : Payload) : List (String × List String) :=
  if instanceBound || alistHas data "_pk" then
    run_required_rules opts.required_fields_on_update
      opts.required_fields_on_update_any data
  else
    run_required_rules opts.required_fields_on_create
      opts.required_fields_on_create_any data

/-- The patched `is_valid`: if the check produced errors, raise them (or
return `False`); otherwise defer to the original `is_valid` (external). -/
def is_valid_patched (opts : FieldOptions) (instanceBound : Bool)
    (data : Payload) (isValidOrig : Bool → Except Exc Bool)
    (raiseException : Bool) : Except Exc Bool :=
  let errors := field_options_check opts instanceBound data
  if errors.isEmpty then isValidOrig raiseException
  else if raiseException then
    Except.error ⟨ExcKind.validation,
      [VArg.dict (errors.map (fun kv => (kv.1, EDetail.msgs kv.2)))]⟩
  else Except.ok false

/-! ### Association-list lemmas -/

theorem alistLookup_append {α : Type} (a b : List (String × α)) (k : String) :
    alistLookup (a ++ b) k
      = match alistLookup a k with
        | some v => some v
        | none => alistLookup b k := by
  induction a with
  | nil => simp [alistLookup]
  | cons hd t ih =>
      by_cases h : (hd.1 == k) = true
      · simp [alistLookup, h]
      · simp only [List.cons_append, alistLookup, h]
        simp only [Bool.false_eq_true, if_false] at *
        exact ih

theorem alistHas_append {α : Type} (a b : List (String × α)) (k : String) :
    alistHas (a ++ b) k = (alistHas a k || alistHas b k) := by
  simp only [alistHas, alistLookup_append]
  cases alistLookup a k <;> simp

theorem alistHas_false_forall {α : Type} {l : List (String × α)} {k : String}
    (h : alistHas l k = false) : ∀ kv ∈ l, (kv.1 == k) = false := by
  induction l with
  | nil => intro kv hkv; cases hkv
  | cons hd t ih =>
      intro kv hkv
      by_cases hh : (hd.1 == k) = true
      · simp [alistHas, alistLookup, hh] at h
      · simp only [alistHas, alistLookup, hh, Bool.false_eq_true, if_false] at h
        cases hkv with
        | head => simpa using hh
        | tail _ hmem => exact ih h kv hmem

theorem alistLookup_eq_none_of_not_has {α : Type} {l : List (String × α)}
    {k : String} (h : alistHas l k = false) : alistLookup l k = none := by
  cases hl : alistLookup l k with
  | none => rfl
  | some v => rw [alistHas, hl] at h; cases h

theorem alistSet_of_not_has {α : Type} {m : List (String × α)} {k : String}
    (v : α) (h : alistHas m k = false) : alistSet m k v = m ++ [(k, v)] := by
  induction m with
  | nil => rfl
  | cons hd t ih =>
      by_cases hh : (hd.1 == k) = true
      · simp [alistHas, alistLookup, hh] at h
      · simp only [alistHas, alistLookup, hh, Bool.false_eq_true, if_false] at h
        simp [alistSet, hh, ih h]

theorem foldl_alistSet_append {α : Type} (d : List (String × α)) :
    ∀ acc : List (String × α), keysDistinct d = true →
    (∀ kv ∈ d, alistHas acc kv.1 = false) →
    d.foldl (fun m kv => alistSet m kv.1 kv.2) acc = acc ++ d := by
  induction d with
  | nil => intro acc _ _; simp
  | cons hd t ih =>
      intro acc hdist hfresh
      simp only [keysDistinct, Bool.and_eq_true, Bool.not_eq_true'] at hdist
      have hset : alistSet acc hd.1 hd.2 = acc ++ [(hd.1, hd.2)] :=
        alistSet_of_not_has hd.2 (hfresh hd (List.mem_cons_self hd t))
      have hfresh' : ∀ kv ∈ t, alistHas (acc ++ [(hd.1, hd.2)]) kv.1 = false := by
        intro kv hkv
        rw [alistHas_append]
        have h1 : alistHas acc kv.1 = false := hfresh kv (List.mem_cons_of_mem hd hkv)
        have h2 : (kv.1 == hd.1) = false := by
          have := alistHas_false_forall hdist.1 kv hkv
          simpa using this
        have hne : ¬(hd.1 = kv.1) := by
          intro hh
          rw [hh] at h2
          simp at h2
        simp [h1, alistHas, alistLookup, hne, alistLookup_eq_none_of_not_has h1]
      calc (hd :: t).foldl (fun m kv => alistSet m kv.1 kv.2) acc
          = t.foldl (fun m kv => alistSet m kv.1 kv.2) (alistSet acc hd.1 hd.2) := rfl
        _ = (acc ++ [(hd.1, hd.2)]) ++ t := by rw [hset]; exact ih _ hdist.2 hfresh'
        _ = acc ++ hd :: t := by simp

theorem keysDistinct_append_parts {α : Type} {a b : List (String × α)}
    (h : keysDistinct (a ++ b) = true) :
    keysDistinct a = true ∧ keysDistinct b = true ∧
      (∀ kv ∈ b, alistHas a kv.1 = false) := by
  induction a with
  | nil => exact ⟨rfl, h, fun kv _ => rfl⟩
  | cons hd t ih =>
      simp only [List.cons_append, keysDistinct, Bool.and_eq_true,
        Bool.not_eq_true'] at h
      rcases h with ⟨hhd, htail⟩
      rw [List.append_eq] at hhd htail
      rw [alistHas_append] at hhd
      rcases Bool.or_eq_false_iff.mp hhd with ⟨hhd1, hhd2⟩
      rcases ih htail with ⟨ha, hb, hfresh⟩
      refine ⟨?_, hb, ?_⟩
      · simp [keysDistinct, hhd1, ha]
      · intro kv hkv
        have hk : (kv.1 == hd.1) = false := by
          have := alistHas_false_forall hhd2 kv hkv
          simpa using this
        have hne : ¬(hd.1 = kv.1) := by
          intro hh
          rw [hh] at hk
          simp at hk
        simp [alistHas, alistLookup, hne,
          alistLookup_eq_none_of_not_has (hfresh kv hkv)]

theorem mergeDictPairsInto_eq_append (args : List VArg) :
    ∀ acc : List (String × EDetail),
    keysDistinct (collectDictPairs args) = true →
    (∀ kv ∈ collectDictPairs args, alistHas acc kv.1 = false) →
    mergeDictPairsInto acc args = acc ++ collectDictPairs args := by
  induction args with
  | nil => intro acc _ _; simp [mergeDictPairsInto, collectDictPairs]
  | cons a t ih =>
      intro acc hdist hfresh
      cases a with
      | str s =>
          simpa [mergeDictPairsInto, collectDictPairs] using
            ih acc (by simpa [collectDictPairs] using hdist)
              (by intro kv hkv; exact hfresh kv (by simpa [collectDictPairs] using hkv))
      | dict d =>
          simp only [collectDictPairs] at hdist hfresh
          rcases keysDistinct_append_parts hdist with ⟨hd1, hd2, hd3⟩
          have hfoldl : d.foldl (fun m kv => alistSet m kv.1 kv.2) acc = acc ++ d :=
            foldl_alistSet_append d acc hd1
              (fun kv hkv => hfresh kv (List.mem_append_left _ hkv))
          have hfresh' : ∀ kv ∈ collectDictPairs t, alistHas (acc ++ d) kv.1 = false := by
            intro kv hkv
            rw [alistHas_append]
            simp [hfresh kv (List.mem_append_right _ hkv), hd3 kv hkv]
          calc mergeDictPairsInto acc (VArg.dict d :: t)
              = mergeDictPairsInto (acc ++ d) t := by rw [mergeDictPairsInto, hfoldl]
            _ = (acc ++ d) ++ collectDictPairs t := ih (acc ++ d) hd2 hfresh'
            _ = acc ++ (d ++ collectDictPairs t) := by simp

theorem mergeDictArgs_eq_collect {args : List VArg}
    (h : keysDistinct (collectDictPairs args) = true) :
    mergeDictArgs args = collectDictPairs args := by
  simpa using mergeDictPairsInto_eq_append args [] h (fun kv _ => rfl)

theorem alistPop_none_not_has {α : Type} {l : List (String × α)} {k : String}
    (h : alistPop l k = none) : alistHas l k = false := by
  induction l with
  | nil => rfl
  | cons hd t ih =>
      by_cases hh : (hd.1 == k) = true
      · simp [alistPop, hh] at h
      · simp only [alistPop, hh, Bool.false_eq_true, if_false] at h
        simp only [alistHas, alistLookup, hh, Bool.false_eq_true, if_false]
        cases hp : alistPop t k with
        | none => exact ih hp
        | some p => rw [hp] at h; cases p; simp at h

theorem alistPop_some_not_has {α : Type} {l : List (String × α)} {k : String}
    {v : α} {rest : List (String × α)} (hdist : keysDistinct l = true)
    (h : alistPop l k = some (v, rest)) : alistHas rest k = false := by
  induction l generalizing v rest with
  | nil => simp [alistPop] at h
  | cons hd t ih =>
      simp only [keysDistinct, Bool.and_eq_true, Bool.not_eq_true'] at hdist
      by_cases hh : (hd.1 == k) = true
      · simp only [alistPop, hh, if_true] at h
        cases h
        have : hd.1 = k := by simpa using hh
        rw [← this]
        exact hdist.1
      · simp only [alistPop, hh, Bool.false_eq_true, if_false] at h
        cases hp : alistPop t k with
        | none => rw [hp] at h; cases h
        | some p =>
            cases p with
            | mk v₀ t' =>
              rw [hp] at h
              cases h
              simp only [alistHas, alistLookup, hh, Bool.false_eq_true, if_false]
              exact ih hdist.2 hp

theorem update_pre_check_append (i : Obj) (vd : Payload)
    (a b : List (String × RelationInfo)) :
    update_pre_check i vd (a ++ b)
      = match update_pre_check i vd a with
        | some e => some e
        | none => update_pre_check i vd b := by
  induction a with
  | nil => simp [update_pre_check]
  | cons hd t ih =>
      cases hd with
      | mk f rel =>
        simp only [List.cons_append, update_pre_check]
        cases check_one_relation i vd f rel <;> simp [ih]

theorem rollback_ok (cs : List Obj) :
    ∀ st : Store,
    rollbackCreated (fun _ => none) cs st
      = Except.ok ⟨st.nextPk,
          st.objs.filter (fun o => !(cs.any (fun c => o.model == c.model && o.pk == c.pk)))⟩ := by
  induction cs with
  | nil => intro st; simp [rollbackCreated]
  | cons c t ih =>
      intro st
      rw [rollbackCreated, ih]
      simp only [storeDelete, List.filter_filter]
      have hfun :
          (fun (a : Obj) => (!(t.any fun c2 => a.model == c2.model && a.pk == c2.pk))
              && !(a.model == c.model && a.pk == c.pk))
            = (fun (o : Obj) => !((c :: t).any fun c2 => o.model == c2.model && o.pk == c2.pk)) := by
        funext o
        simp [List.any_cons, Bool.and_comm]
      rw [hfun]

theorem rollback_err {dex : Obj → Option Exc} {c : Obj} {e2 : Exc}
    (post : List Obj) (hc : dex c = some e2) :
    ∀ (front : List Obj) (st : Store), (∀ o ∈ front, dex o = none) →
    rollbackCreated dex (front ++ c :: post) st
      = Except.error (e2, ⟨st.nextPk,
          st.objs.filter (fun o => !(front.any (fun q => o.model == q.model && o.pk == q.pk)))⟩) := by
  intro front
  induction front with
  | nil =>
      intro st _
      simp only [List.nil_append, rollbackCreated, hc]
      cases st with
      | mk n objs => simp
  | cons q t ih =>
      intro st hfront
      have hq : dex q = none := hfront q (List.mem_cons_self q t)
      rw [List.cons_append, rollbackCreated, hq, ih _ (fun o ho => hfront o (List.mem_cons_of_mem q ho))]
      simp only [storeDelete, List.filter_filter]
      have hfun :
          (fun (a : Obj) => (!(t.any fun q2 => a.model == q2.model && a.pk == q2.pk))
              && !(a.model == q.model && a.pk == q.pk))
            = (fun (o : Obj) => !((q :: t).any fun q2 => o.model == q2.model && o.pk == q2.pk)) := by
        funext o
        simp [List.any_cons, Bool.and_comm]
      rw [hfun]

/-! ### Claim theorems -/

/-- C3: the single-payload resolver `_handle_single_instance_data`: without
`_pk` a new nested object is validated and persisted and `(created = True,
object)` is returned; with a `_pk` that matches no stored object of the
related model it fails with a validation error citing the missing primary
key; with a `_pk` of an existing object, that object is validated against
the payload, persisted with update semantics, and `(created = False,
object)` is returned. (Successful validation by the external nested
serializer is hypothesised in the two success branches.) -/
theorem resolve_single_dispatch (relatedModel : String) (fo : SerObj)
    (fd : Payload) (st : Store) :
    ((alistPop fd "_pk" = none →
        (fo.child.getD fo.own).validate fd = none →
        handle_single_instance_data relatedModel fo fd st
          = Except.ok ((true,
              ⟨(fo.child.getD fo.own).modelName, st.nextPk,
                fd.map (fun kv => (kv.1, RVal.val kv.2))⟩),
              ⟨st.nextPk + 1, st.objs ++ [⟨(fo.child.getD fo.own).modelName, st.nextPk,
                fd.map (fun kv => (kv.1, RVal.val kv.2))⟩]⟩))
    ∧ (∀ pkv rest, alistPop fd "_pk" = some (pkv, rest) →
        storeGetByPk st relatedModel pkv = none →
        handle_single_instance_data relatedModel fo fd st
          = Except.error (validationExc
              [(NON_FIELD_ERRORS_KEY,
                EDetail.msgs ["No such " ++ relatedModel ++ " object with primary key "
                  ++ pkv.render ++ " exists."])]))
    ∧ (∀ pkv rest inst0, alistPop fd "_pk" = some (pkv, rest) →
        storeGetByPk st relatedModel pkv = some inst0 →
        fo.own.validate rest = none →
        handle_single_instance_data relatedModel fo fd st
          = Except.ok ((false,
              ⟨inst0.model, inst0.pk,
                rest.foldl (fun d kv => alistSet d kv.1 (RVal.val kv.2)) inst0.data⟩),
              storeReplace st ⟨inst0.model, inst0.pk,
                rest.foldl (fun d kv => alistSet d kv.1 (RVal.val kv.2)) inst0.data⟩))) := by
  refine ⟨?_, ?_, ?_⟩
  · intro hpop hval
    simp [handle_single_instance_data, hpop, handle_create_branch, serRunCreate, hval]
  · intro pkv rest hpop hget
    simp [handle_single_instance_data, hpop, handle_update_branch, hget]
  · intro pkv rest inst0 hpop hget hval
    simp [handle_single_instance_data, hpop, handle_update_branch, hget,
      serRunUpdate, hval]

/-- C3 witness: the three branches at concrete inputs. -/
theorem resolve_single_dispatch_witness :
    (alistPop [("zip", PVal.str "1")] "_pk" = none
      ∧ handle_single_instance_data "Address" ⟨none, ⟨"Address", fun _ => none⟩⟩
          [("zip", PVal.str "1")] ⟨1, []⟩
        = Except.ok ((true, ⟨"Address", 1, [("zip", RVal.val (PVal.str "1"))]⟩),
            ⟨2, [⟨"Address", 1, [("zip", RVal.val (PVal.str "1"))]⟩]⟩))
    ∧ handle_single_instance_data "Address" ⟨none, ⟨"Address", fun _ => none⟩⟩
          [("_pk", PVal.nat 9)] ⟨1, []⟩
        = Except.error (validationExc
            [(NON_FIELD_ERRORS_KEY,
              EDetail.msgs ["No such Address object with primary key 9 exists."])])
    ∧ handle_single_instance_data "Address" ⟨none, ⟨"Address", fun _ => none⟩⟩
          [("_pk", PVal.nat 7), ("zip", PVal.str "2")]
          ⟨8, [⟨"Address", 7, [("zip", RVal.val (PVal.str "0"))]⟩]⟩
        = Except.ok ((false, ⟨"Address", 7, [("zip", RVal.val (PVal.str "2"))]⟩),
            ⟨8, [⟨"Address", 7, [("zip", RVal.val (PVal.str "2"))]⟩]⟩) :=
  ⟨⟨rfl, (resolve_single_dispatch "Address" ⟨none, ⟨"Address", fun _ => none⟩⟩
      [("zip", PVal.str "1")] ⟨1, []⟩).1 rfl rfl⟩,
   (resolve_single_dispatch "Address" ⟨none, ⟨"Address", fun _ => none⟩⟩
      [("_pk", PVal.nat 9)] ⟨1, []⟩).2.1 (PVal.nat 9) [] rfl rfl,
   (resolve_single_dispatch "Address" ⟨none, ⟨"Address", fun _ => none⟩⟩
      [("_pk", PVal.nat 7), ("zip", PVal.str "2")]
      ⟨8, [⟨"Address", 7, [("zip", RVal.val (PVal.str "0"))]⟩]⟩).2.2
      (PVal.nat 7) [("zip", PVal.str "2")]
      ⟨"Address", 7, [("zip", RVal.val (PVal.str "0"))]⟩ rfl rfl rfl⟩

/-- C4: the discriminator key `_pk` is popped from a nested payload before
the payload reaches the nested serializer: in the create branch the data
forwarded is the original payload, which contains no `_pk`; in the update
branch the data forwarded is the popped remainder, which contains no `_pk`
(payload keys are distinct, as for any Python dict). -/
theorem discriminator_removed_before_nested (relatedModel : String)
    (fo : SerObj) (fd : Payload) (st : Store) (hdist : keysDistinct fd = true) :
    ((alistPop fd "_pk" = none →
        alistHas fd "_pk" = false ∧
        handle_single_instance_data relatedModel fo fd st
          = handle_create_branch fo fd st)
    ∧ (∀ pkv rest, alistPop fd "_pk" = some (pkv, rest) →
        alistHas rest "_pk" = false ∧
        handle_single_instance_data relatedModel fo fd st
          = handle_update_branch relatedModel fo pkv rest st)) := by
  refine ⟨?_, ?_⟩
  · intro hpop
    exact ⟨alistPop_none_not_has hpop, by simp [handle_single_instance_data, hpop]⟩
  · intro pkv rest hpop
    exact ⟨alistPop_some_not_has hdist hpop, by simp [handle_single_instance_data, hpop]⟩

/-- C4 witness: both branches at concrete payloads. -/
theorem discriminator_removed_before_nested_witness :
    (keysDistinct [("_pk", PVal.nat 3), ("zip", PVal.str "1")] = true
      ∧ alistHas [("zip", PVal.str "1")] "_pk" = false
      ∧ handle_single_instance_data "Address" ⟨none, ⟨"Address", fun _ => none⟩⟩
          [("_pk", PVal.nat 3), ("zip", PVal.str "1")] ⟨1, []⟩
        = handle_update_branch "Address" ⟨none, ⟨"Address", fun _ => none⟩⟩
            (PVal.nat 3) [("zip", PVal.str "1")] ⟨1, []⟩)
    ∧ (alistHas [("zip", PVal.str "1")] "_pk" = false
      ∧ handle_single_instance_data "Address" ⟨none, ⟨"Address", fun _ => none⟩⟩
          [("zip", PVal.str "1")] ⟨1, []⟩
        = handle_create_branch ⟨none, ⟨"Address", fun _ => none⟩⟩
            [("zip", PVal.str "1")] ⟨1, []⟩) :=
  ⟨⟨rfl, (discriminator_removed_before_nested "Address" ⟨none, ⟨"Address", fun _ => none⟩⟩
      [("_pk", PVal.nat 3), ("zip", PVal.str "1")] ⟨1, []⟩ rfl).2
      (PVal.nat 3) [("zip", PVal.str "1")] rfl⟩,
   (discriminator_removed_before_nested "Address" ⟨none, ⟨"Address", fun _ => none⟩⟩
      [("zip", PVal.str "1")] ⟨1, []⟩ rfl).1 rfl⟩

/-- C5: `_get_nested_validation_error` wraps a validation failure under the
field name: the result carries exactly one top-level key — the field name —
mapped to the merge of all key/detail pairs of the inner failure's dict
arguments (equal to their concatenated union when the keys are distinct);
in particular a depth-2 failure `{inner: [msg]}` surfaces as
`{outer: {inner: [msg]}}`, exactly two levels of mapping. -/
theorem nested_error_wrapped_under_field (fieldName : String) (e : Exc) :
    ((e.kind ≠ ExcKind.other →
        get_nested_validation_error fieldName e
          = Except.ok ⟨e.kind,
              [VArg.dict [(fieldName, EDetail.node (mergeDictArgs e.args))]]⟩)
    ∧ (keysDistinct (collectDictPairs e.args) = true →
        mergeDictArgs e.args = collectDictPairs e.args)
    ∧ (∀ innerField ms, e.args = [VArg.dict [(innerField, EDetail.msgs ms)]] →
        e.kind ≠ ExcKind.other →
        get_nested_validation_error fieldName e
          = Except.ok ⟨e.kind,
              [VArg.dict [(fieldName,
                EDetail.node [(innerField, EDetail.msgs ms)])]]⟩)) := by
  refine ⟨?_, ?_, ?_⟩
  · intro hk
    simp [get_nested_validation_error, hk]
  · intro hdist
    exact mergeDictArgs_eq_collect hdist
  · intro innerField ms hargs hk
    simp [get_nested_validation_error, hk, hargs, mergeDictArgs,
      mergeDictPairsInto, alistSet]

/-- C5 witness: a two-dict-argument error and a depth-2 error at concrete
inputs. -/
theorem nested_error_wrapped_under_field_witness :
    get_nested_validation_error "user"
        ⟨ExcKind.validation,
          [VArg.dict [("a", EDetail.msgs ["m1"])], VArg.str "x",
           VArg.dict [("b", EDetail.msgs ["m2"])]]⟩
      = Except.ok ⟨ExcKind.validation,
          [VArg.dict [("user",
            EDetail.node (mergeDictArgs
              [VArg.dict [("a", EDetail.msgs ["m1"])], VArg.str "x",
               VArg.dict [("b", EDetail.msgs ["m2"])]]))]]⟩
    ∧ mergeDictArgs
        [VArg.dict [("a", EDetail.msgs ["m1"])], VArg.str "x",
         VArg.dict [("b", EDetail.msgs ["m2"])]]
      = [("a", EDetail.msgs ["m1"]), ("b", EDetail.msgs ["m2"])]
    ∧ get_nested_validation_error "user"
        ⟨ExcKind.validation, [VArg.dict [("zip_code", EDetail.msgs ["Required."])]]⟩
      = Except.ok ⟨ExcKind.validation,
          [VArg.dict [("user",
            EDetail.node [("zip_code", EDetail.msgs ["Required."])])]]⟩ :=
  ⟨(nested_error_wrapped_under_field "user"
      ⟨ExcKind.validation,
        [VArg.dict [("a", EDetail.msgs ["m1"])], VArg.str "x",
         VArg.dict [("b", EDetail.msgs ["m2"])]]⟩).1 (by simp),
   (nested_error_wrapped_under_field "user"
      ⟨ExcKind.validation,
        [VArg.dict [("a", EDetail.msgs ["m1"])], VArg.str "x",
         VArg.dict [("b", EDetail.msgs ["m2"])]]⟩).2.1 rfl,
   (nested_error_wrapped_under_field "user"
      ⟨ExcKind.validation,
        [VArg.dict [("zip_code", EDetail.msgs ["Required."])]]⟩).2.2
      "zip_code" ["Required."] rfl (by simp)⟩

/-- C9: the patched `is_valid` selects the update-operation required-field
rules exactly when the serializer is bound to an instance or the top-level
data contains the key `_pk`; an unbound serializer whose data carries `_pk`
is validated under the update rules, and otherwise under the create rules. -/
theorem update_rules_selected_by_pk_or_instance (opts : FieldOptions)
    (data : Payload) :
    ((alistHas data "_pk" = true →
        field_options_check opts false data
          = run_required_rules opts.required_fields_on_update
              opts.required_fields_on_update_any data)
    ∧ (field_options_check opts true data
          = run_required_rules opts.required_fields_on_update
              opts.required_fields_on_update_any data)
    ∧ (alistHas data "_pk" = false →
        field_options_check opts false data
          = run_required_rules opts.required_fields_on_create
              opts.required_fields_on_create_any data)) := by
  refine ⟨?_, ?_, ?_⟩
  · intro h; simp [field_options_check, h]
  · simp [field_options_check]
  · intro h; simp [field_options_check, h]

/-- C9 witness: an unbound serializer whose data carries `_pk` is checked
under update rules (here requiring `email`), not create rules. -/
theorem update_rules_selected_by_pk_or_instance_witness :
    alistHas [("_pk", PVal.nat 3)] "_pk" = true
    ∧ field_options_check ⟨["name"], ["email"], [], []⟩ false [("_pk", PVal.nat 3)]
      = run_required_rules ["email"] [] [("_pk", PVal.nat 3)] :=
  ⟨rfl, (update_rules_selected_by_pk_or_instance
      ⟨["name"], ["email"], [], []⟩ [("_pk", PVal.nat 3)]).1 rfl⟩

/-- C6 counterexample: applying the discriminator injection twice to a
definition with explicit field list `["state", "zip_code"]` does NOT yield
`["state", "zip_code", "_pk"]` — the second application appends `_pk`
again, since `Meta.fields` is extended unconditionally by
`tuple(serializer_meta_fields) + ("_pk",)`. -/
theorem inject_pk_twice_cex :
    ¬ ((inject_pk_field (inject_pk_field
          ⟨["state", "zip_code"], MetaFields.explicitList ["state", "zip_code"]⟩)).metaFields
        = MetaFields.explicitList ["state", "zip_code", "_pk"]) := by
  decide

/-- C6 amended: for a nested serializer definition with explicit field list
`F` (and no `_pk` among its declared fields), each application of the
injection appends `_pk` to `Meta.fields` once, so applying it twice yields
`F ++ ["_pk", "_pk"]` — the injection is not idempotent on `Meta.fields`;
only the `_declared_fields` registration of `_pk` is idempotent (the key is
added exactly once). -/
theorem inject_pk_twice_appends_twice (c : SerClass) (fs : List String)
    (hm : c.metaFields = MetaFields.explicitList fs)
    (hd : c.declaredFields.contains "_pk" = false) :
    (inject_pk_field (inject_pk_field c)).metaFields
        = MetaFields.explicitList (fs ++ ["_pk", "_pk"])
    ∧ (inject_pk_field (inject_pk_field c)).declaredFields
        = c.declaredFields ++ ["_pk"] := by
  cases c with
  | mk df mf =>
      simp only at hm hd
      subst hm
      have hmem : ¬("_pk" ∈ df) := by simpa using hd
      constructor
      · simp [inject_pk_field, hmem]
      · simp [inject_pk_field, hmem, List.mem_append]

/-- C6 witness for the amended claim, at the counterexample's input. -/
theorem inject_pk_twice_appends_twice_witness :
    (MetaFields.explicitList ["state", "zip_code"]
        = MetaFields.explicitList ["state", "zip_code"])
    ∧ (["state", "zip_code"].contains "_pk" = false)
    ∧ (inject_pk_field (inject_pk_field
          ⟨["state", "zip_code"], MetaFields.explicitList ["state", "zip_code"]⟩)).metaFields
        = MetaFields.explicitList ["state", "zip_code", "_pk", "_pk"]
    ∧ (inject_pk_field (inject_pk_field
          ⟨["state", "zip_code"], MetaFields.explicitList ["state", "zip_code"]⟩)).declaredFields
        = ["state", "zip_code", "_pk"] :=
  ⟨rfl, rfl,
   (inject_pk_twice_appends_twice
      ⟨["state", "zip_code"], MetaFields.explicitList ["state", "zip_code"]⟩
      ["state", "zip_code"] rfl rfl).1,
   (inject_pk_twice_appends_twice
      ⟨["state", "zip_code"], MetaFields.explicitList ["state", "zip_code"]⟩
      ["state", "zip_code"] rfl rfl).2⟩

/-- C8: for a serializer declaring an OR-required group of two fields
(`required_fields_on_create_any` for an unbound serializer without `_pk`
in its data, or `required_fields_on_update_any` for a bound one),
validating data containing neither field fails with the single error
`{"__all__": ["At least one of ... is required."]}`, while data containing
one of the fields passes the patched check and defers to the original
`is_valid`. -/
theorem required_or_group_validation (a b : String) (data : Payload)
    (origF : Bool → Except Exc Bool) :
    (((alistHas data a = false → alistHas data b = false →
        alistHas data "_pk" = false →
        field_options_check ⟨[], [], [a, b], []⟩ false data
          = [(NON_FIELD_ERRORS_KEY,
              ["At least one of \"" ++ String.intercalate ", " [a, b]
                ++ "\" is required."])]
        ∧ is_valid_patched ⟨[], [], [a, b], []⟩ false data origF true
          = Except.error ⟨ExcKind.validation,
              [VArg.dict [(NON_FIELD_ERRORS_KEY,
                EDetail.msgs ["At least one of \"" ++ String.intercalate ", " [a, b]
                  ++ "\" is required."])]]⟩)
    ∧ (alistHas data a = true → alistHas data "_pk" = false →
        field_options_check ⟨[], [], [a, b], []⟩ false data = []
        ∧ ∀ r, is_valid_patched ⟨[], [], [a, b], []⟩ false data origF r = origF r)
    ∧ (alistHas data b = true → alistHas data "_pk" = false →
        field_options_check ⟨[], [], [a, b], []⟩ false data = []
        ∧ ∀ r, is_valid_patched ⟨[], [], [a, b], []⟩ false data origF r = origF r))
    ∧ ((alistHas data a = false → alistHas data b = false →
        field_options_check ⟨[], [], [], [a, b]⟩ true data
          = [(NON_FIELD_ERRORS_KEY,
              ["At least one of \"" ++ String.intercalate ", " [a, b]
                ++ "\" is required."])]
        ∧ is_valid_patched ⟨[], [], [], [a, b]⟩ true data origF true
          = Except.error ⟨ExcKind.validation,
              [VArg.dict [(NON_FIELD_ERRORS_KEY,
                EDetail.msgs ["At least one of \"" ++ String.intercalate ", " [a, b]
                  ++ "\" is required."])]]⟩)
    ∧ (alistHas data a = true →
        field_options_check ⟨[], [], [], [a, b]⟩ true data = []
        ∧ ∀ r, is_valid_patched ⟨[], [], [], [a, b]⟩ true data origF r = origF r)
    ∧ (alistHas data b = true →
        field_options_check ⟨[], [], [], [a, b]⟩ true data = []
        ∧ ∀ r, is_valid_patched ⟨[], [], [], [a, b]⟩ true data origF r = origF r))) := by
  refine ⟨⟨?_, ?_, ?_⟩, ?_, ?_, ?_⟩
  · intro ha hb hp
    have hch : field_options_check ⟨[], [], [a, b], []⟩ false data
        = [(NON_FIELD_ERRORS_KEY,
            ["At least one of \"" ++ String.intercalate ", " [a, b]
              ++ "\" is required."])] := by
      simp [field_options_check, hp, run_required_rules, ha, hb, update_error_dict,
        alistLookup]
    exact ⟨hch, by simp [is_valid_patched, hch]⟩
  · intro ha hp
    have hch : field_options_check ⟨[], [], [a, b], []⟩ false data = [] := by
      simp [field_options_check, hp, run_required_rules, ha]
    exact ⟨hch, fun r => by simp [is_valid_patched, hch]⟩
  · intro hb hp
    have hch : field_options_check ⟨[], [], [a, b], []⟩ false data = [] := by
      simp [field_options_check, hp, run_required_rules, hb]
    exact ⟨hch, fun r => by simp [is_valid_patched, hch]⟩
  · intro ha hb
    have hch : field_options_check ⟨[], [], [], [a, b]⟩ true data
        = [(NON_FIELD_ERRORS_KEY,
            ["At least one of \"" ++ String.intercalate ", " [a, b]
              ++ "\" is required."])] := by
      simp [field_options_check, run_required_rules, ha, hb, update_error_dict,
        alistLookup]
    exact ⟨hch, by simp [is_valid_patched, hch]⟩
  · intro ha
    have hch : field_options_check ⟨[], [], [], [a, b]⟩ true data = [] := by
      simp [field_options_check, run_required_rules, ha]
    exact ⟨hch, fun r => by simp [is_valid_patched, hch]⟩
  · intro hb
    have hch : field_options_check ⟨[], [], [], [a, b]⟩ true data = [] := by
      simp [field_options_check, run_required_rules, hb]
    exact ⟨hch, fun r => by simp [is_valid_patched, hch]⟩

/-- C8 witness: group `("state", "zip_code")` on create, with empty data
(neither field) and with exactly `state` present. -/
theorem required_or_group_validation_witness :
    is_valid_patched ⟨[], [], ["state", "zip_code"], []⟩ false []
        (fun _ => Except.ok true) true
      = Except.error ⟨ExcKind.validation,
          [VArg.dict [(NON_FIELD_ERRORS_KEY,
            EDetail.msgs ["At least one of \"state, zip_code\" is required."])]]⟩
    ∧ is_valid_patched ⟨[], [], ["state", "zip_code"], []⟩ false
        [("state", PVal.str "CA")] (fun _ => Except.ok true) true
      = Except.ok true :=
  ⟨((required_or_group_validation "state" "zip_code" []
      (fun _ => Except.ok true)).1.1 rfl rfl rfl).2,
   (((required_or_group_validation "state" "zip_code" [("state", PVal.str "CA")]
      (fun _ => Except.ok true)).1.2.1 rfl rfl).2 true)⟩

/-- C1: any exception raised while resolving nested relational fields (after
earlier nested payloads were persisted) triggers compensation: every object
this call newly created (the tracked created-instance set) is deleted from
the store — and only those, so nested objects that were updated rather than
created are untouched — before the exception propagates, both for `create`
and for `update`. -/
theorem create_update_rollback_deletes_created (fields : List FieldDecl)
    (info : List (String × RelationInfo)) (validated : Payload) (st : Store)
    (e : Exc) (created : List Obj) (st' : Store)
    (hloop : loopFields info fields ⟨validated, [], [], [], st⟩
      = Except.error ⟨e, created, st'⟩) :
    (get_related_field_data fields (fun _ => none) info validated st
        = Except.error (e, ⟨st'.nextPk,
            st'.objs.filter
              (fun o => !(created.any (fun c => o.model == c.model && o.pk == c.pk)))⟩))
    ∧ (∀ modelName, mixin_create fields modelName (fun _ => none) info validated st
        = Except.error (e, ⟨st'.nextPk,
            st'.objs.filter
              (fun o => !(created.any (fun c => o.model == c.model && o.pk == c.pk)))⟩))
    ∧ (∀ inst0 : Obj, update_pre_check inst0 validated info = none →
        mixin_update fields (fun _ => none) info inst0 validated st
        = Except.error (e, ⟨st'.nextPk,
            st'.objs.filter
              (fun o => !(created.any (fun c => o.model == c.model && o.pk == c.pk)))⟩)) := by
  have hg : get_related_field_data fields (fun _ => none) info validated st
      = Except.error (e, ⟨st'.nextPk,
          st'.objs.filter
            (fun o => !(created.any (fun c => o.model == c.model && o.pk == c.pk)))⟩) := by
    simp only [get_related_field_data, hloop, rollback_ok]
  refine ⟨hg, fun modelName => ?_, fun inst0 hpre => ?_⟩
  · rw [mixin_create, hg]
  · rw [mixin_update, hpre, hg]

/-- C7: if a delete performed during compensation itself raises, that delete
failure is not caught: it propagates to the caller in place of the original
triggering error, and the remaining tracked objects (everything past the
failing delete) are not deleted — compensation is single-pass with no
retry. -/
theorem compensation_delete_failure_propagates (fields : List FieldDecl)
    (info : List (String × RelationInfo)) (validated : Payload) (st : Store)
    (e : Exc) (created : List Obj) (st' : Store) (front : List Obj) (c : Obj)
    (post : List Obj) (deleteExc : Obj → Option Exc) (e2 : Exc)
    (hloop : loopFields info fields ⟨validated, [], [], [], st⟩
      = Except.error ⟨e, created, st'⟩)
    (hsplit : created = front ++ c :: post)
    (hfront : ∀ o ∈ front, deleteExc o = none)
    (hc : deleteExc c = some e2) :
    (get_related_field_data fields deleteExc info validated st
        = Except.error (e2, ⟨st'.nextPk,
            st'.objs.filter
              (fun o => !(front.any (fun q => o.model == q.model && o.pk == q.pk)))⟩))
    ∧ (∀ o, o ∈ st'.objs →
        (front.any (fun q => o.model == q.model && o.pk == q.pk)) = false →
        o ∈ (st'.objs.filter
          (fun o2 => !(front.any (fun q => o2.model == q.model && o2.pk == q.pk))))) := by
  subst hsplit
  constructor
  · simp only [get_related_field_data, hloop, rollback_err post hc front st' hfront]
  · intro o ho hno
    exact List.mem_filter.mpr ⟨ho, by simp [hno]⟩

/-- C2: on `update`, a to-one relational field whose payload value is a
mapping while the instance already holds a related object must carry a
matching `_pk`: a missing `_pk` fails with `{field: ["Related object
already exists."]}` and a mismatched `_pk` fails with a field-scoped error
citing that primary key — in both cases before any nested resolution or
persistence side effect (the store returned with the error is the input
store, untouched). -/
theorem update_to_one_discriminator_guard (fields : List FieldDecl)
    (deleteExc : Obj → Option Exc) (front rest : List (String × RelationInfo))
    (fieldName : String) (rel : RelationInfo) (inst0 : Obj)
    (validated : Payload) (st : Store) (fd : Payload) (rmodel : String)
    (rpk : Nat)
    (htm : rel.toMany = false)
    (hfront : update_pre_check inst0 validated front = none)
    (hlv : alistLookup validated fieldName = some (PVal.map fd))
    (href : getRelatedRef inst0 fieldName = some (rmodel, rpk)) :
    ((alistLookup fd "_pk" = none →
        mixin_update fields deleteExc (front ++ (fieldName, rel) :: rest)
            inst0 validated st
          = Except.error (validationExc
              [(fieldName, EDetail.msgs ["Related object already exists."])], st))
    ∧ (∀ pkv, alistLookup fd "_pk" = some pkv → pvEqNat pkv rpk = false →
        mixin_update fields deleteExc (front ++ (fieldName, rel) :: rest)
            inst0 validated st
          = Except.error (validationExc
              [(fieldName, EDetail.msgs
                ["No such " ++ rmodel ++ " object with primary key "
                  ++ pkv.render ++ " exists."])], st))) := by
  constructor
  · intro hpk
    have hcheck : check_one_relation inst0 validated fieldName rel
        = some (validationExc
            [(fieldName, EDetail.msgs ["Related object already exists."])]) := by
      simp [check_one_relation, htm, hlv, href, hpk]
    have hupc : update_pre_check inst0 validated (front ++ (fieldName, rel) :: rest)
        = some (validationExc
            [(fieldName, EDetail.msgs ["Related object already exists."])]) := by
      rw [update_pre_check_append, hfront]
      simp [update_pre_check, hcheck]
    rw [mixin_update, hupc]
  · intro pkv hpk hne
    have hcheck : check_one_relation inst0 validated fieldName rel
        = some (validationExc
            [(fieldName, EDetail.msgs
              ["No such " ++ rmodel ++ " object with primary key "
                ++ pkv.render ++ " exists."])]) := by
      simp [check_one_relation, htm, hlv, href, hpk, hne]
    have hupc : update_pre_check inst0 validated (front ++ (fieldName, rel) :: rest)
        = some (validationExc
            [(fieldName, EDetail.msgs
              ["No such " ++ rmodel ++ " object with primary key "
                ++ pkv.render ++ " exists."])]) := by
      rw [update_pre_check_append, hfront]
      simp [update_pre_check, hcheck]
    rw [mixin_update, hupc]

/-- C10 counterexample: a full `update` whose to-many field is modelled
faithfully (`own` is the `ListSerializer` class): the element carrying the
`_pk` of the existing (unrelated) `Address 5` is NOT validated or
persisted: the run fails with the constructor `AssertionError` and the
store comes back unchanged (`Address 5` still holds its old `zip`),
refuting that update "validates and persists changes to that object". -/
theorem to_many_pk_update_never_persists_cex :
    mixin_update
        [⟨"addresses", some (toManySerObj ⟨"Address", fun _ => none⟩)⟩]
        (fun _ => none)
        [("addresses", ⟨"Address", true⟩)]
        ⟨"User", 1, [("name", RVal.val (PVal.str "p"))]⟩
        [("addresses", PVal.list [PVal.map [("_pk", PVal.nat 5), ("zip", PVal.str "00000")]])]
        ⟨6, [⟨"User", 1, [("name", RVal.val (PVal.str "p"))]⟩,
             ⟨"Address", 5, [("zip", RVal.val (PVal.str "11111"))]⟩]⟩
      = Except.error (listSerializerAssertionError,
          ⟨6, [⟨"User", 1, [("name", RVal.val (PVal.str "p"))]⟩,
               ⟨"Address", 5, [("zip", RVal.val (PVal.str "11111"))]⟩]⟩) := rfl

/-- C10 amended: the update-time discriminator consistency check is indeed
skipped for every to-many relational field (the `continue`), so only
to-one relations are protected against re-pointing; but a to-many nested
payload element carrying a `_pk` is never validated or persisted: its
resolution runs `field_obj.__class__(instance, data=element)` where
`field_obj.__class__` is the `ListSerializer` class, whose construction
without a `child` raises an `AssertionError` before any validation; the
error is no `ValidationError`, so it escapes the element loop unwrapped,
with the store and the created-instance set untouched by this element. -/
theorem to_many_check_skipped_element_raises :
    (∀ (inst0 : Obj) (vd : Payload) (front post : List (String × RelationInfo))
        (f : String) (rel : RelationInfo), rel.toMany = true →
      update_pre_check inst0 vd (front ++ (f, rel) :: post)
        = update_pre_check inst0 vd (front ++ post))
    ∧ (∀ (rm : String) (child : SerDef) (f : String) (fd : Payload) (pkv : PVal)
        (rest : Payload) (X : Obj) (acc : LoopAcc) (elems : List PVal),
      alistPop fd "_pk" = some (pkv, rest) →
      storeGetByPk acc.store rm pkv = some X →
      processElems rm (toManySerObj child) f (PVal.map fd :: elems) acc
        = Except.error ⟨listSerializerAssertionError, acc.created, acc.store⟩) := by
  refine ⟨?_, ?_⟩
  · intro inst0 vd front post f rel htm
    rw [update_pre_check_append, update_pre_check_append]
    have hskip : update_pre_check inst0 vd ((f, rel) :: post)
        = update_pre_check inst0 vd post := by
      simp [update_pre_check, check_one_relation, htm]
    rw [hskip]
  · intro rm child f fd pkv rest X acc elems hpop hget
    simp [processElems, handleSinglePV, handle_single_instance_data, hpop,
      handle_update_branch, hget, serRunUpdate, toManySerObj,
      listSerializerClass, wrapFieldError, listSerializerAssertionError]

/-! ### Example scenario shared by the concrete witnesses -/

/-- A nested serializer whose validation always passes. -/
def exSerAddress : SerDef := ⟨"Address", fun _ => none⟩

/-- A nested serializer whose validation always fails on `number`. -/
def exSerPhoneBad : SerDef :=
  ⟨"Phone", fun _ => some (validationExc [("number", EDetail.msgs ["Invalid."])])⟩

/-- Two to-one nested serializer fields: `address` (valid) then `phone`
(failing). -/
def exFields : List FieldDecl :=
  [⟨"address", some ⟨none, exSerAddress⟩⟩, ⟨"phone", some ⟨none, exSerPhoneBad⟩⟩]

/-- Relation map for `exFields`. -/
def exInfo : List (String × RelationInfo) :=
  [("address", ⟨"Address", false⟩), ("phone", ⟨"Phone", false⟩)]

/-- Validated payload whose `address` succeeds and whose `phone` fails. -/
def exPayload : Payload :=
  [("address", PVal.map [("zip", PVal.str "12345")]),
   ("phone", PVal.map [("number", PVal.str "x")])]

/-- The address object the scenario persists before failing on `phone`. -/
def exAddressObj : Obj := ⟨"Address", 1, [("zip", RVal.val (PVal.str "12345"))]⟩

/-- The phone validation failure wrapped under its field name. -/
def exWrappedErr : Exc :=
  ⟨ExcKind.validation,
    [VArg.dict [("phone", EDetail.node [("number", EDetail.msgs ["Invalid."])])]]⟩

/-- A database error raised when deleting the address during compensation. -/
def exDbErr : Exc := ⟨ExcKind.other, [VArg.str "DatabaseError"]⟩

/-- A delete behaviour that fails on `Address` rows. -/
def exDeleteFails : Obj → Option Exc :=
  fun o => if o.model == "Address" then some exDbErr else none

/-- C1 witness: the two-field create persists the address, the sibling
`phone` fails validation, and the already persisted address is gone from
the store the error carries. -/
theorem create_update_rollback_deletes_created_witness :
    loopFields exInfo exFields ⟨exPayload, [], [], [], ⟨1, []⟩⟩
      = Except.error ⟨exWrappedErr, [exAddressObj], ⟨2, [exAddressObj]⟩⟩
    ∧ get_related_field_data exFields (fun _ => none) exInfo exPayload ⟨1, []⟩
      = Except.error (exWrappedErr, ⟨2, []⟩)
    ∧ mixin_create exFields "User" (fun _ => none) exInfo exPayload ⟨1, []⟩
      = Except.error (exWrappedErr, ⟨2, []⟩) :=
  ⟨rfl,
   (create_update_rollback_deletes_created exFields exInfo exPayload ⟨1, []⟩
      exWrappedErr [exAddressObj] ⟨2, [exAddressObj]⟩ rfl).1,
   (create_update_rollback_deletes_created exFields exInfo exPayload ⟨1, []⟩
      exWrappedErr [exAddressObj] ⟨2, [exAddressObj]⟩ rfl).2.1 "User"⟩

/-- C7 witness: the same scenario with a delete that raises during
compensation: the database error replaces the validation error and the
address row is still in the store. -/
theorem compensation_delete_failure_propagates_witness :
    loopFields exInfo exFields ⟨exPayload, [], [], [], ⟨1, []⟩⟩
      = Except.error ⟨exWrappedErr, [exAddressObj], ⟨2, [exAddressObj]⟩⟩
    ∧ exDeleteFails exAddressObj = some exDbErr
    ∧ get_related_field_data exFields exDeleteFails exInfo exPayload ⟨1, []⟩
      = Except.error (exDbErr, ⟨2, [exAddressObj]⟩) :=
  ⟨rfl, rfl,
   (compensation_delete_failure_propagates exFields exInfo exPayload ⟨1, []⟩
      exWrappedErr [exAddressObj] ⟨2, [exAddressObj]⟩ [] exAddressObj []
      exDeleteFails exDbErr rfl rfl
      (fun o ho => absurd ho (List.not_mem_nil o)) rfl).1⟩

/-- A parent object already holding `Address 1` in its `address` slot. -/
def exUserObj : Obj := ⟨"User", 2, [("address", RVal.ref "Address" 1)]⟩

/-- Store holding the address and the user. -/
def exStoreU : Store := ⟨3, [exAddressObj, exUserObj]⟩

/-- Single to-one `address` field. -/
def exFields1 : List FieldDecl := [⟨"address", some ⟨none, exSerAddress⟩⟩]

/-- C2 witness: update with a nested `address` mapping missing `_pk`, and
with `_pk = 999` mismatching the related object's pk `1`; both fail
field-scoped with the store untouched. -/
theorem update_to_one_discriminator_guard_witness :
    mixin_update exFields1 (fun _ => none) [("address", ⟨"Address", false⟩)]
        exUserObj [("address", PVal.map [("zip", PVal.str "00000")])] exStoreU
      = Except.error (validationExc
          [("address", EDetail.msgs ["Related object already exists."])], exStoreU)
    ∧ mixin_update exFields1 (fun _ => none) [("address", ⟨"Address", false⟩)]
        exUserObj
        [("address", PVal.map [("_pk", PVal.nat 999), ("zip", PVal.str "00000")])]
        exStoreU
      = Except.error (validationExc
          [("address", EDetail.msgs
            ["No such Address object with primary key 999 exists."])], exStoreU) :=
  ⟨(update_to_one_discriminator_guard exFields1 (fun _ => none) [] [] "address"
      ⟨"Address", false⟩ exUserObj
      [("address", PVal.map [("zip", PVal.str "00000")])] exStoreU
      [("zip", PVal.str "00000")] "Address" 1 rfl rfl rfl rfl).1 rfl,
   (update_to_one_discriminator_guard exFields1 (fun _ => none) [] [] "address"
      ⟨"Address", false⟩ exUserObj
      [("address", PVal.map [("_pk", PVal.nat 999), ("zip", PVal.str "00000")])]
      exStoreU
      [("_pk", PVal.nat 999), ("zip", PVal.str "00000")] "Address" 1
      rfl rfl rfl rfl).2 (PVal.nat 999) rfl rfl⟩

/-- C10 witness for the amended claim: the pre-check skip and the
element-raises behaviour at concrete inputs. -/
theorem to_many_check_skipped_element_raises_witness :
    update_pre_check exUserObj
        [("addresses", PVal.map [("_pk", PVal.nat 999)])]
        [("addresses", ⟨"Address", true⟩)]
      = update_pre_check exUserObj
          [("addresses", PVal.map [("_pk", PVal.nat 999)])] []
    ∧ alistPop [("_pk", PVal.nat 5), ("zip", PVal.str "0")] "_pk"
        = some (PVal.nat 5, [("zip", PVal.str "0")])
    ∧ processElems "Address" (toManySerObj exSerAddress) "addresses"
        [PVal.map [("_pk", PVal.nat 5), ("zip", PVal.str "0")]]
        ⟨[], [], [], [], ⟨6, [⟨"Address", 5, [("zip", RVal.val (PVal.str "1"))]⟩]⟩⟩
      = Except.error ⟨listSerializerAssertionError, [],
          ⟨6, [⟨"Address", 5, [("zip", RVal.val (PVal.str "1"))]⟩]⟩⟩ :=
  ⟨to_many_check_skipped_element_raises.1 exUserObj
      [("addresses", PVal.map [("_pk", PVal.nat 999)])] [] []
      "addresses" ⟨"Address", true⟩ rfl,
   rfl,
   to_many_check_skipped_element_raises.2 "Address" exSerAddress "addresses"
      [("_pk", PVal.nat 5), ("zip", PVal.str "0")] (PVal.nat 5)
      [("zip", PVal.str "0")] ⟨"Address", 5, [("zip", RVal.val (PVal.str "1"))]⟩
      ⟨[], [], [], [], ⟨6, [⟨"Address", 5, [("zip", RVal.val (PVal.str "1"))]⟩]⟩⟩
      [] rfl rfl⟩
